import Mathlib

/-!
Verification of the `base` active-record engine (`base.go`).

Shallow embedding conventions:
* the gin context's `"txDb"` slot is `Option (Option Nat)`: `none` means the
  key is absent, `some none` means the key is present holding a stored `nil`,
  `some (some h)` means the key holds the transaction handle `h`;
* the external store is a pure value: a table is a list of rows; a query is a
  filter over that list; whether a query was issued is recorded in an explicit
  flag of each operation's outcome;
* Go `(value, error)` returns become pairs with an `Option String` error slot
  (`some msg` is a non-nil error).
-/

namespace Base

/-! ### Transaction scope (base.go `Tx`, `Transaction`, `IsInTransaction`) -/

/-- The request scope, reduced to the `"txDb"` key that the transaction
machinery uses. `txDb = none`: key never set; `txDb = some v`: key present
with value `v` (`v = none` models a stored Go `nil`). -/
structure Ctx where
  txDb : Option (Option Nat)
deriving DecidableEq

/-- Model of `ctx.Set("txDb", v)`: the key becomes present with value `v`. -/
def Ctx.setTxDb (c : Ctx) (v : Option Nat) : Ctx :=
  { c with txDb := some v }

/-- base.go `Tx()`: `db, exist := Ctx.Get("txDb"); if exist && db != nil
return db; return m.Db`. -/
def Tx (c : Ctx) (defaultDb : Nat) : Nat :=
  match c.txDb with
  | some (some h) => h
  | _ => defaultDb

/-- base.go `IsInTransaction()`: `_, exist := Ctx.Get("txDb"); return exist`.
Only key presence is tested, not the stored value. -/
def IsInTransaction (c : Ctx) : Bool :=
  c.txDb.isSome

/-- Observable outcome of one `Transaction` call. `opened` records whether a
new storage transaction handle was opened, `fnInvoked` whether the caller's
closure ran. -/
structure TxOutcome where
  ctx : Ctx
  opened : Bool
  fnInvoked : Bool
  committed : Bool
  rolledBack : Bool
  err : Option String
deriving DecidableEq

/-- base.go `Transaction(fc, opts...)`.  If the `"txDb"` key is present the
call returns the duplicate-transaction error at once.  Otherwise the
underlying store opens a handle `newTx`, the code sets `"txDb"` to `newTx`
and runs the closure (abstracted by its returned error `fnErr`): on a non-nil
error the store rolls back and the closure exits WITHOUT resetting `"txDb"`;
on nil the code sets `"txDb"` to `nil` and the store commits. -/
def Transaction (c : Ctx) (newTx : Nat) (fnErr : Option String) : TxOutcome :=
  match c.txDb with
  | some _ =>
      { ctx := c, opened := false, fnInvoked := false, committed := false,
        rolledBack := false, err := some "事务已开启,不要重复开启事务,请开发检查" }
  | none =>
      match fnErr with
      | some e =>
          { ctx := c.setTxDb (some newTx), opened := true, fnInvoked := true,
            committed := false, rolledBack := true, err := some e }
      | none =>
          { ctx := c.setTxDb none, opened := true, fnInvoked := true,
            committed := true, rolledBack := false, err := none }

/-! ### Column-name validation (base.go `validateSafeColumnName`) -/

/-- First character of a name segment: `[a-zA-Z_]`. -/
def isSegHeadChar (c : Char) : Bool :=
  c.isAlpha || c == '_'

/-- Later characters of a name segment: `[a-zA-Z0-9_]`. -/
def isSegTailChar (c : Char) : Bool :=
  c.isAlphanum || c == '_'

/-- One dot-separated segment of the allow-list pattern. -/
def isSafeSegment (s : List Char) : Bool :=
  match s with
  | [] => false
  | c :: rest => isSegHeadChar c && rest.all isSegTailChar

/-- Splitting on dots, keeping empty segments (as `strings.Split` and the
regex anchor semantics do): `"a..b"` gives `["a", "", "b"]` and `""` gives
`[""]`. -/
def splitOnDot : List Char → List (List Char)
  | [] => [[]]
  | c :: rest =>
      if c = '.' then [] :: splitOnDot rest
      else
        match splitOnDot rest with
        | [] => [[c]]
        | seg :: segs => (c :: seg) :: segs

/-- The allow-list regex `^([a-zA-Z_][a-zA-Z0-9_]*)(\.[a-zA-Z_][a-zA-Z0-9_]*)*$`:
every dot-separated segment is a nonempty identifier (splitting keeps empty
segments, so leading, trailing or doubled dots fail). -/
def matchesSafeColumnName (s : String) : Bool :=
  (splitOnDot s.toList).all isSafeSegment

/-- base.go `validateSafeColumnName`: empty names and names outside the
allow-list pattern are rejected; `some msg` models a non-nil error. -/
def validateSafeColumnName (column : String) : Option String :=
  if column = "" then some "字段名不能为空"
  else if !matchesSafeColumnName column then some ("字段名非法: " ++ column)
  else none

/-! ### Single-column queries

A table with one relevant unique column is a list of `(id, value)` rows. -/

/-- The query `SELECT id WHERE column = v` over the abstract table. -/
def idsMatching (rows : List (Nat × String)) (v : String) : List Nat :=
  (rows.filter fun r => r.2 == v).map Prod.fst

/-- Outcome of an existence/duplicate check: the boolean result, the error
slot, and whether a storage query was issued. -/
structure CheckOutcome where
  exist : Bool
  err : Option String
  queryIssued : Bool
deriving DecidableEq

/-- base.go `CheckBusinessCodeExist`: validates the column name, queries the
ids holding the candidate value, then classifies: zero matches → not
duplicate; two or more → duplicate; exactly one → not duplicate iff it is
the entity's own id. On a validation error the Go code returns `(true, err)`
without querying. -/
def CheckBusinessCodeExist (selfId : Nat) (filedName : String)
    (rows : List (Nat × String)) (businessCode : String) : CheckOutcome :=
  match validateSafeColumnName filedName with
  | some e => { exist := true, err := some e, queryIssued := false }
  | none =>
      let ids := idsMatching rows businessCode
      if ids.length = 0 then { exist := false, err := none, queryIssued := true }
      else if 2 ≤ ids.length then { exist := true, err := none, queryIssued := true }
      else if selfId = ids.getD 0 0 then { exist := false, err := none, queryIssued := true }
      else { exist := true, err := none, queryIssued := true }

/-! ### Multi-column (unique-key) queries

A table with a tuple of relevant columns is a list of `(id, values)` rows. -/

/-- base.go `CheckUniqueKeysExist`: builds `(f1,...,fn) = ?` directly from the
caller's field names — the source performs NO column-name validation here —
queries the matching ids and classifies exactly as `CheckBusinessCodeExist`. -/
def CheckUniqueKeysExist (selfId : Nat) (filedNames : List String)
    (values : List String) (rows : List (Nat × List String)) : CheckOutcome :=
  let _ := filedNames
  let ids := (rows.filter fun r => r.2 == values).map Prod.fst
  if ids.length = 0 then { exist := false, err := none, queryIssued := true }
  else if 2 ≤ ids.length then { exist := true, err := none, queryIssued := true }
  else if selfId = ids.getD 0 0 then { exist := false, err := none, queryIssued := true }
  else { exist := true, err := none, queryIssued := true }

/-- The `CONCAT_WS(',', ...)` concatenation of a row's column values (the
fingerprint), which also matches `strings.Join(itemVals, ",")` on the
candidate side. -/
def fingerprint (vals : List String) : String :=
  String.intercalate "," vals

/-- The in-memory `resMap[fingerprint] = id` built by the batch check: a Go
map insert overwrites, so the LAST row with a given fingerprint wins. -/
def resMapLookup (list : List (Nat × String)) (key : String) : Option Nat :=
  (list.reverse.find? fun item => item.2 == key).map Prod.fst

/-- Outcome of the batch unique-key check. -/
structure BatchOutcome where
  res : List Bool
  err : Option String
  queryIssued : Bool
deriving DecidableEq

/-- base.go `CheckUniqueKeysExistBatch`: when the candidate list or the field
list is empty it returns the freshly allocated all-false slice with a nil
error and no query; otherwise ONE query fetches `(id, fingerprint)` pairs for
rows whose tuple is among the candidates, and each candidate is marked
duplicate iff its fingerprint is found with an id outside `withOutIds`.
The source imposes no bound on the number of candidates. -/
def CheckUniqueKeysExistBatch (filedNames : List String)
    (values : List (List String)) (withOutIds : List Nat)
    (rows : List (Nat × List String)) : BatchOutcome :=
  if values.length = 0 ∨ filedNames.length = 0 then
    { res := List.replicate values.length false, err := none, queryIssued := false }
  else
    let list := (rows.filter fun r => values.contains r.2).map
      fun r => (r.1, fingerprint r.2)
    let classify := fun itemVals =>
      match resMapLookup list (fingerprint itemVals) with
      | some id => !(withOutIds.contains id)
      | none => false
    { res := values.map classify, err := none, queryIssued := true }

/-- Outcome of an operation observed only through its error slot and whether
it issued a storage query. -/
structure OpOutcome where
  err : Option String
  queryIssued : Bool
deriving DecidableEq

/-- base.go `LoadByBusinessCode`: validates the field name first, then
requires the registered entity, then queries `column = value` and loads the
first row (distinct not-found error).  The loaded id stands in for the loaded
entity. -/
def LoadByBusinessCode (entityRegistered : Bool) (filedName filedValue : String)
    (rows : List (Nat × String)) : OpOutcome × Option Nat :=
  match validateSafeColumnName filedName with
  | some e => ({ err := some e, queryIssued := false }, none)
  | none =>
      if !entityRegistered then
        ({ err := some "[BASE]中业务实体为空,请开发检查", queryIssued := false }, none)
      else
        match idsMatching rows filedValue with
        | [] => ({ err := some "查询的数据不存在,请检查", queryIssued := true }, none)
        | id :: _ => ({ err := none, queryIssued := true }, some id)

/-- base.go `ListByBusinessCode`: validates the field name, then queries all
rows with `column = value`. -/
def ListByBusinessCode (filedName filedValue : String)
    (rows : List (Nat × String)) : OpOutcome × List Nat :=
  match validateSafeColumnName filedName with
  | some e => ({ err := some e, queryIssued := false }, [])
  | none => ({ err := none, queryIssued := true }, idsMatching rows filedValue)

/-- base.go `ListByBusinessCodes`: validates the field name, rejects an empty
value list, then queries `column in values`. -/
def ListByBusinessCodes (filedName : String) (filedValues : List String)
    (rows : List (Nat × String)) : OpOutcome × List Nat :=
  match validateSafeColumnName filedName with
  | some e => ({ err := some e, queryIssued := false }, [])
  | none =>
      if filedValues.length = 0 then
        ({ err := some "ListByBusinessCodes查询,业务编码列表不能为空", queryIssued := false }, [])
      else
        ({ err := none, queryIssued := true },
          ((rows.filter fun r => filedValues.contains r.2).map Prod.fst))

/-- base.go `CountByBusinessCode`: validates the field name, then counts rows
with `column = value`. -/
def CountByBusinessCode (filedName filedValue : String)
    (rows : List (Nat × String)) : OpOutcome × Nat :=
  match validateSafeColumnName filedName with
  | some e => ({ err := some e, queryIssued := false }, 0)
  | none => ({ err := none, queryIssued := true }, (idsMatching rows filedValue).length)

/-- base.go `CountByBusinessCodes`: validates the field name, rejects an
empty value list, then counts rows with `column in values`. -/
def CountByBusinessCodes (filedName : String) (filedValues : List String)
    (rows : List (Nat × String)) : OpOutcome × Nat :=
  match validateSafeColumnName filedName with
  | some e => ({ err := some e, queryIssued := false }, 0)
  | none =>
      if filedValues.length = 0 then
        ({ err := some "CountByBusinessCodes查询,业务编码列表不能为空", queryIssued := false }, 0)
      else
        ({ err := none, queryIssued := true },
          (rows.filter fun r => filedValues.contains r.2).length)

/-- base.go `CheckBusinessCodesExist`: validates the field name, issues one
`column in values` query for the stored values, and marks index `i` true iff
`values[i]` occurs among the returned values. -/
def CheckBusinessCodesExist (filedName : String) (values : List String)
    (rows : List (Nat × String)) : OpOutcome × List Bool :=
  match validateSafeColumnName filedName with
  | some e => ({ err := some e, queryIssued := false }, [])
  | none =>
      let dbFileds := (rows.filter fun r => values.contains r.2).map Prod.snd
      ({ err := none, queryIssued := true }, values.map fun v => dbFileds.contains v)

/-! ### State machine (base.go `InitStateMachine`, `EventExecution`)

The external `looplab/fsm` library is modelled by its observable contract:
a transition table of `(name, source set, destination)` rows plus the
mandatory after-event callback registered by `InitStateMachine`; the other
hook kinds are abstracted as a possible firing error. -/

/-- Model of `fsm.EventDesc`: event name, legal source states, destination
state. -/
structure EventDesc where
  name : String
  src : List String
  dst : String
deriving DecidableEq

/-- A business entity observed through its persisted status field. -/
structure Entity where
  status : String
deriving DecidableEq

/-- The destination for `(event, current)` in the transition map built by
`fsm.NewFSM`; map inserts overwrite, so the LAST matching description wins. -/
def findDst (events : List EventDesc) (current event : String) : Option String :=
  ((events.filter fun ed => ed.name == event && ed.src.contains current).map
    EventDesc.dst).getLast?

/-- Model of `fsm.Can(event)`: some transition for the event leaves the
current state. -/
def canFire (events : List EventDesc) (current event : String) : Bool :=
  (findDst events current event).isSome

/-- The per-call state machine built by base.go `InitStateMachine`: seeded
state, transition table, and the mandatory after-event hook (called with the
fired event's destination). -/
structure StateMachine where
  current : String
  events : List EventDesc
  afterEvent : String → Entity → Entity

/-- base.go `InitStateMachine` (the extra named callback maps, used by no
claim, are not modelled). -/
def InitStateMachine (initStatus : String) (events : List EventDesc)
    (afterEvent : String → Entity → Entity) : StateMachine :=
  { current := initStatus, events := events, afterEvent := afterEvent }

/-- Result of firing one event on the machine: updated machine and entity,
plus whether the library reported `NoTransitionError` (source equals
destination; the after-event hook still runs and the caller tolerates it). -/
structure FireOutcome where
  machine : StateMachine
  entity : Entity
  noTransition : Bool

/-- Model of `fsm.Event` for a legal event: move to the destination (or stay, with
`NoTransitionError`, when it equals the current state) and run the
after-event hook with the destination. -/
def fireEvent (m : StateMachine) (ent : Entity) (event : String) : FireOutcome :=
  match findDst m.events m.current event with
  | none => { machine := m, entity := ent, noTransition := false }
  | some dst =>
      if dst == m.current then
        { machine := m, entity := m.afterEvent dst ent, noTransition := true }
      else
        { machine := { m with current := dst }, entity := m.afterEvent dst ent,
          noTransition := false }

/-- Outcome of one `EventExecution` call: its error slot, whether the single
save was issued, and the storage contents after the call. -/
structure ExecOutcome where
  err : Option String
  saveIssued : Bool
  store : Option Entity
deriving DecidableEq

/-- base.go `EventExecution`: fails when no state machine is registered or no
entity is registered; resets the machine to `initStatus`; rejects an event
not legal from it; fires the event (an extra-hook failure, abstracted as
`hookErr`, aborts; `NoTransitionError` is tolerated); finally issues the one
save, whose failure (`saveOk = false`) propagates.  `store` is the persisted
entity before the call. -/
def EventExecution (machine : Option StateMachine) (entity : Option Entity)
    (initStatus event eventZhName : String) (hookErr : Option String)
    (saveOk : Bool) (store : Option Entity) : ExecOutcome :=
  match machine with
  | none => { err := some "状态机未注册,请开发检查", saveIssued := false, store := store }
  | some m0 =>
      match entity with
      | none => { err := some "业务实体为空,请开发检查", saveIssued := false, store := store }
      | some ent =>
          let m := { m0 with current := initStatus }
          if !canFire m.events m.current event then
            { err := some ("当前状态[" ++ initStatus ++ "],不允许执行事件[" ++ eventZhName ++ "],请开发检查"),
              saveIssued := false, store := store }
          else
            match hookErr with
            | some e =>
                { err := some ("执行事件[" ++ eventZhName ++ "]失败[" ++ e ++ "],请开发检查"),
                  saveIssued := false, store := store }
            | none =>
                let fo := fireEvent m ent event
                if saveOk then
                  { err := none, saveIssued := true, store := some fo.entity }
                else
                  { err := some "保存最终状态失败,请开发检查", saveIssued := true, store := store }

/-! ### Query composition (base.go `Count`, `List`, `ClearOffset`) -/

/-- The observable state of a query under construction: accumulated WHERE
predicates (conjunction, in order), LIMIT and OFFSET clauses (`none` when the
clause is absent or cancelled by a negative argument, as gorm renders it),
and accumulated ORDER BY expressions. -/
structure Query where
  wheres : List String
  limit : Option Int
  offset : Option Int
  orders : List String
deriving DecidableEq

/-- Model of `SearchCondition = func(db *gorm.DB) *gorm.DB`. -/
def SearchCondition : Type := Query → Query

/-- gorm `Limit`: a negative argument cancels the clause. -/
def limitScope (n : Int) (q : Query) : Query :=
  { q with limit := if n < 0 then none else some n }

/-- gorm `Offset`: a negative argument cancels the clause. -/
def offsetScope (n : Int) (q : Query) : Query :=
  { q with offset := if n < 0 then none else some n }

/-- gorm `Order`: appends one ORDER BY expression. -/
def orderScope (expr : String) (q : Query) : Query :=
  { q with orders := q.orders ++ [expr] }

/-- gorm `Where`: appends one conjunct. -/
def whereScope (p : String) : SearchCondition :=
  fun q => { q with wheres := q.wheres ++ [p] }

/-- base.go `ClearOffset`: `db.Limit(-1).Offset(-1)`. -/
def ClearOffset : SearchCondition :=
  fun q => offsetScope (-1) (limitScope (-1) q)

/-- gorm `Scopes(...)`: applies the condition functions left to right. -/
def applyScopes (conds : List SearchCondition) (q : Query) : Query :=
  conds.foldl (fun q c => c q) q

/-- base.go `Count`: scopes in the order default condition, permission
conditions, caller conditions, then `ClearOffset`, then `COUNT`. -/
def CountQuery (defaultCond : SearchCondition) (perms conds : List SearchCondition)
    (q0 : Query) : Query :=
  ClearOffset (applyScopes conds (applyScopes perms (defaultCond q0)))

/-- base.go `List`: scopes in the order default condition, permission
conditions, caller conditions, then the customer order if configured and
`id desc` otherwise (preloads, which touch only related collections, are not
modelled). -/
def ListQuery (defaultCond : SearchCondition) (perms conds : List SearchCondition)
    (customerOrder : String) (q0 : Query) : Query :=
  let q := applyScopes conds (applyScopes perms (defaultCond q0))
  if customerOrder ≠ "" then orderScope customerOrder q else orderScope "id desc" q

/-! ### Helper lemmas -/

/-- The single unique-key check reaches its query with a nil error for every
input, whatever the field names are. -/
theorem checkUniqueKeysExist_always_queries (selfId : Nat)
    (filedNames : List String) (values : List String)
    (rows : List (Nat × List String)) :
    (CheckUniqueKeysExist selfId filedNames values rows).err = none ∧
    (CheckUniqueKeysExist selfId filedNames values rows).queryIssued = true := by
  unfold CheckUniqueKeysExist
  dsimp only
  split
  · exact ⟨rfl, rfl⟩
  · split
    · exact ⟨rfl, rfl⟩
    · split
      · exact ⟨rfl, rfl⟩
      · exact ⟨rfl, rfl⟩

/-- Applying a list of appended WHERE conjuncts accumulates them in order and
touches no other part of the query. -/
theorem applyScopes_whereScope (ps : List String) (q : Query) :
    applyScopes (ps.map whereScope) q = { q with wheres := q.wheres ++ ps } := by
  induction ps generalizing q with
  | nil => simp [applyScopes]
  | cons p ps ih =>
      show applyScopes (ps.map whereScope) (whereScope p q) = _
      rw [ih]
      simp [whereScope]

/-! ### Claim theorems -/

/-- C1: whenever any value is already registered under the txDb key, a
Transaction call fails immediately with an error: no second transaction
handle is opened, the closure is never invoked, and the scope is left
unchanged. -/
theorem transaction_nested_rejected (c : Ctx) (v : Option Nat) (newTx : Nat)
    (fnErr : Option String) (h : c.txDb = some v) :
    (Transaction c newTx fnErr).err.isSome = true ∧
    (Transaction c newTx fnErr).opened = false ∧
    (Transaction c newTx fnErr).fnInvoked = false ∧
    (Transaction c newTx fnErr).ctx = c := by
  simp [Transaction, h]

/-- C1 witness: a scope already holding the handle 1 rejects a second
Transaction call without opening a handle or running the closure. -/
theorem transaction_nested_rejected_witness :
    (Ctx.mk (some (some 1))).txDb = some (some 1) ∧
    ((Transaction (Ctx.mk (some (some 1))) 2 none).err.isSome = true ∧
     (Transaction (Ctx.mk (some (some 1))) 2 none).opened = false ∧
     (Transaction (Ctx.mk (some (some 1))) 2 none).fnInvoked = false ∧
     (Transaction (Ctx.mk (some (some 1))) 2 none).ctx = Ctx.mk (some (some 1))) :=
  ⟨rfl, transaction_nested_rejected (Ctx.mk (some (some 1))) (some 1) 2 none rfl⟩

/-- C2 (code bug evaluated at the failing input): a Transaction on a fresh
scope whose closure returns an error rolls the storage transaction back, yet
the txDb registration is NOT cleared: the rolled-back handle 7 stays
registered, Tx keeps returning it, and the scope still reports an open
transaction. -/
theorem transaction_error_keeps_registration :
    (Transaction (Ctx.mk none) 7 (some "fn failed")).rolledBack = true ∧
    (Transaction (Ctx.mk none) 7 (some "fn failed")).err = some "fn failed" ∧
    (Transaction (Ctx.mk none) 7 (some "fn failed")).ctx.txDb = some (some 7) ∧
    Tx (Transaction (Ctx.mk none) 7 (some "fn failed")).ctx 0 = 7 ∧
    IsInTransaction (Transaction (Ctx.mk none) 7 (some "fn failed")).ctx = true :=
  ⟨rfl, rfl, rfl, rfl, rfl⟩

/-- C9: after a Transaction whose closure returns nil, the txDb key remains
present holding nil: Tx returns the default handle again, IsInTransaction
still reports true, and every further Transaction call on the same scope
fails with the transaction-already-open error. -/
theorem transaction_success_leaves_key (c : Ctx) (newTx newTx2 d : Nat)
    (fnErr2 : Option String) (h : c.txDb = none) :
    (Transaction c newTx none).err = none ∧
    (Transaction c newTx none).committed = true ∧
    (Transaction c newTx none).ctx.txDb = some none ∧
    Tx (Transaction c newTx none).ctx d = d ∧
    IsInTransaction (Transaction c newTx none).ctx = true ∧
    (Transaction (Transaction c newTx none).ctx newTx2 fnErr2).err =
      some "事务已开启,不要重复开启事务,请开发检查" := by
  obtain ⟨t⟩ := c
  have ht : t = none := h
  subst ht
  exact ⟨rfl, rfl, rfl, rfl, rfl, rfl⟩

/-- C9 witness on a fresh scope with default handle 4. -/
theorem transaction_success_leaves_key_witness :
    (Ctx.mk none).txDb = none ∧
    ((Transaction (Ctx.mk none) 3 none).err = none ∧
     (Transaction (Ctx.mk none) 3 none).committed = true ∧
     (Transaction (Ctx.mk none) 3 none).ctx.txDb = some none ∧
     Tx (Transaction (Ctx.mk none) 3 none).ctx 4 = 4 ∧
     IsInTransaction (Transaction (Ctx.mk none) 3 none).ctx = true ∧
     (Transaction (Transaction (Ctx.mk none) 3 none).ctx 9 (some "e")).err =
       some "事务已开启,不要重复开启事务,请开发检查") :=
  ⟨rfl, transaction_success_leaves_key (Ctx.mk none) 3 9 4 (some "e") rfl⟩

/-- C3 counterexample: with 501 candidate tuples and a nonempty field list
the batch check does NOT fail fast: it returns a nil error and proceeds to
issue its storage query. -/
theorem batch_over_500_no_failfast :
    500 < (List.replicate 501 (["v"] : List String)).length ∧
    (CheckUniqueKeysExistBatch ["f"] (List.replicate 501 ["v"]) [] []).err = none ∧
    (CheckUniqueKeysExistBatch ["f"] (List.replicate 501 ["v"]) [] []).queryIssued = true := by
  refine ⟨by simp only [List.length_replicate]; omega, ?_, ?_⟩ <;>
    · unfold CheckUniqueKeysExistBatch
      rw [if_neg (by simp only [List.length_replicate, List.length_cons, List.length_nil]; omega)]

/-- C3 amended: the batch check imposes no input-size cap: for any candidate
list of more than 500 tuples and nonempty field list it returns a nil error,
issues its single query, and classifies every candidate, so the result keeps
the input length and nothing is truncated. -/
theorem batch_no_size_cap (filedNames : List String)
    (values : List (List String)) (withOutIds : List Nat)
    (rows : List (Nat × List String))
    (hval : 500 < values.length) (hf : filedNames ≠ []) :
    (CheckUniqueKeysExistBatch filedNames values withOutIds rows).err = none ∧
    (CheckUniqueKeysExistBatch filedNames values withOutIds rows).queryIssued = true ∧
    (CheckUniqueKeysExistBatch filedNames values withOutIds rows).res.length =
      values.length := by
  have h0 : ¬values.length = 0 := by omega
  have h1 : ¬filedNames.length = 0 := by simpa [List.length_eq_zero] using hf
  have h : ¬(values.length = 0 ∨ filedNames.length = 0) := by tauto
  unfold CheckUniqueKeysExistBatch
  rw [if_neg h]
  exact ⟨rfl, rfl, by simp⟩

/-- C3 amended witness at 501 identical candidates. -/
theorem batch_no_size_cap_witness :
    (CheckUniqueKeysExistBatch ["f"] (List.replicate 501 ["v"]) [] []).err = none ∧
    (CheckUniqueKeysExistBatch ["f"] (List.replicate 501 ["v"]) [] []).queryIssued = true ∧
    (CheckUniqueKeysExistBatch ["f"] (List.replicate 501 ["v"]) [] []).res.length =
      (List.replicate 501 (["v"] : List String)).length :=
  batch_no_size_cap ["f"] (List.replicate 501 ["v"]) [] []
    (by simp only [List.length_replicate]; omega) (by simp)

/-- C4: classification of CheckBusinessCodeExist under a valid column name:
zero matching rows is not a duplicate; a single match equal to the entity's
own id is not a duplicate; a single different match, or two or more matches,
is a duplicate; and when no row at all holds the candidate value (the
unpersisted-entity case included) the result is not-duplicate. -/
theorem checkBusinessCodeExist_classification (selfId : Nat)
    (filedName code : String) (rows : List (Nat × String))
    (hv : validateSafeColumnName filedName = none) :
    (idsMatching rows code = [] →
      CheckBusinessCodeExist selfId filedName rows code =
        { exist := false, err := none, queryIssued := true }) ∧
    (idsMatching rows code = [selfId] →
      CheckBusinessCodeExist selfId filedName rows code =
        { exist := false, err := none, queryIssued := true }) ∧
    (∀ j, idsMatching rows code = [j] → j ≠ selfId →
      CheckBusinessCodeExist selfId filedName rows code =
        { exist := true, err := none, queryIssued := true }) ∧
    (2 ≤ (idsMatching rows code).length →
      CheckBusinessCodeExist selfId filedName rows code =
        { exist := true, err := none, queryIssued := true }) ∧
    ((∀ r ∈ rows, r.2 ≠ code) →
      CheckBusinessCodeExist selfId filedName rows code =
        { exist := false, err := none, queryIssued := true }) := by
  refine ⟨?_, ?_, ?_, ?_, ?_⟩
  · intro h
    simp [CheckBusinessCodeExist, hv, h]
  · intro h
    simp [CheckBusinessCodeExist, hv, h]
  · intro j h hj
    simp [CheckBusinessCodeExist, hv, h, Ne.symm hj]
  · intro h
    have h0 : ¬(idsMatching rows code).length = 0 := by omega
    simp [CheckBusinessCodeExist, hv, h0, h]
  · intro h
    have h0 : idsMatching rows code = [] := by
      unfold idsMatching
      have : rows.filter (fun r => r.2 == code) = [] := by
        rw [List.filter_eq_nil_iff]
        intro a ha
        simp [h a ha]
      simp [this]
    simp [CheckBusinessCodeExist, hv, h0]

/-- C4 witness: the persisted entity 5 re-checking its own value, an
unpersisted entity against a taken value, duplicates, and an absent value. -/
theorem checkBusinessCodeExist_classification_witness :
    CheckBusinessCodeExist 5 "order_code" [(5, "A")] "A" =
      { exist := false, err := none, queryIssued := true } ∧
    CheckBusinessCodeExist 0 "order_code" [(5, "A")] "A" =
      { exist := true, err := none, queryIssued := true } ∧
    CheckBusinessCodeExist 0 "order_code" [(1, "A"), (2, "A")] "A" =
      { exist := true, err := none, queryIssued := true } ∧
    CheckBusinessCodeExist 0 "order_code" [(1, "B")] "A" =
      { exist := false, err := none, queryIssued := true } :=
  ⟨(checkBusinessCodeExist_classification 5 "order_code" "A" [(5, "A")] (by decide)).2.1
      (by decide),
   (checkBusinessCodeExist_classification 0 "order_code" "A" [(5, "A")] (by decide)).2.2.1 5
      (by decide) (by decide),
   (checkBusinessCodeExist_classification 0 "order_code" "A" [(1, "A"), (2, "A")]
      (by decide)).2.2.2.1 (by decide),
   (checkBusinessCodeExist_classification 0 "order_code" "A" [(1, "B")] (by decide)).2.2.2.2
      (by decide)⟩

/-- C5 counterexample: the name "f;drop" fails the allow-list pattern, yet
CheckUniqueKeysExist and CheckUniqueKeysExistBatch accept it: neither
validates, both return a nil error and proceed to build and issue the query
text. -/
theorem uniqueKeys_skip_validation :
    (validateSafeColumnName "f;drop").isSome = true ∧
    (CheckUniqueKeysExist 0 ["f;drop"] ["v"] []).err = none ∧
    (CheckUniqueKeysExist 0 ["f;drop"] ["v"] []).queryIssued = true ∧
    (CheckUniqueKeysExistBatch ["f;drop"] [["v"]] [] []).err = none ∧
    (CheckUniqueKeysExistBatch ["f;drop"] [["v"]] [] []).queryIssued = true :=
  ⟨by decide, rfl, rfl, rfl, rfl⟩

/-- C5 amended: the allow-list guard covers LoadByBusinessCode,
ListByBusinessCode, ListByBusinessCodes, CountByBusinessCode,
CountByBusinessCodes, CheckBusinessCodeExist and CheckBusinessCodesExist —
each rejects an invalid column name with the validation error before issuing
any query — while CheckUniqueKeysExist and CheckUniqueKeysExistBatch perform
no such validation and proceed to the query even for an invalid name. -/
theorem column_validation_coverage (filedName e : String)
    (h : validateSafeColumnName filedName = some e)
    (value : String) (values : List String) (rows : List (Nat × String))
    (rows2 : List (Nat × List String)) (entityRegistered : Bool) (selfId : Nat)
    (tuple : List String) (tuples : List (List String)) (wo : List Nat) :
    (LoadByBusinessCode entityRegistered filedName value rows).1 =
      { err := some e, queryIssued := false } ∧
    (ListByBusinessCode filedName value rows).1 =
      { err := some e, queryIssued := false } ∧
    (ListByBusinessCodes filedName values rows).1 =
      { err := some e, queryIssued := false } ∧
    (CountByBusinessCode filedName value rows).1 =
      { err := some e, queryIssued := false } ∧
    (CountByBusinessCodes filedName values rows).1 =
      { err := some e, queryIssued := false } ∧
    CheckBusinessCodeExist selfId filedName rows value =
      { exist := true, err := some e, queryIssued := false } ∧
    (CheckBusinessCodesExist filedName values rows).1 =
      { err := some e, queryIssued := false } ∧
    (CheckUniqueKeysExist selfId [filedName] tuple rows2).err = none ∧
    (CheckUniqueKeysExist selfId [filedName] tuple rows2).queryIssued = true ∧
    (CheckUniqueKeysExistBatch [filedName] (tuple :: tuples) wo rows2).err = none ∧
    (CheckUniqueKeysExistBatch [filedName] (tuple :: tuples) wo rows2).queryIssued = true := by
  have hq := checkUniqueKeysExist_always_queries selfId [filedName] tuple rows2
  refine ⟨?_, ?_, ?_, ?_, ?_, ?_, ?_, hq.1, hq.2, ?_, ?_⟩
  · simp [LoadByBusinessCode, h]
  · simp [ListByBusinessCode, h]
  · simp [ListByBusinessCodes, h]
  · simp [CountByBusinessCode, h]
  · simp [CountByBusinessCodes, h]
  · simp [CheckBusinessCodeExist, h]
  · simp [CheckBusinessCodesExist, h]
  · unfold CheckUniqueKeysExistBatch
    rw [if_neg (by simp)]
  · unfold CheckUniqueKeysExistBatch
    rw [if_neg (by simp)]

/-- C5 amended witness at the invalid name "f;drop". -/
theorem column_validation_coverage_witness :
    (LoadByBusinessCode true "f;drop" "v" []).1 =
      { err := some "字段名非法: f;drop", queryIssued := false } ∧
    (ListByBusinessCode "f;drop" "v" []).1 =
      { err := some "字段名非法: f;drop", queryIssued := false } ∧
    (ListByBusinessCodes "f;drop" ["v"] []).1 =
      { err := some "字段名非法: f;drop", queryIssued := false } ∧
    (CountByBusinessCode "f;drop" "v" []).1 =
      { err := some "字段名非法: f;drop", queryIssued := false } ∧
    (CountByBusinessCodes "f;drop" ["v"] []).1 =
      { err := some "字段名非法: f;drop", queryIssued := false } ∧
    CheckBusinessCodeExist 0 "f;drop" [] "v" =
      { exist := true, err := some "字段名非法: f;drop", queryIssued := false } ∧
    (CheckBusinessCodesExist "f;drop" ["v"] []).1 =
      { err := some "字段名非法: f;drop", queryIssued := false } ∧
    (CheckUniqueKeysExist 0 ["f;drop"] ["v"] []).err = none ∧
    (CheckUniqueKeysExist 0 ["f;drop"] ["v"] []).queryIssued = true ∧
    (CheckUniqueKeysExistBatch ["f;drop"] (["v"] :: []) [] []).err = none ∧
    (CheckUniqueKeysExistBatch ["f;drop"] (["v"] :: []) [] []).queryIssued = true :=
  column_validation_coverage "f;drop" "字段名非法: f;drop" (by decide)
    "v" ["v"] [] [] true 0 ["v"] [] []

/-- C10: an empty candidate list or an empty field list short-circuits the
batch check: an all-false slice of the candidates' length, a nil error, and
no storage query. -/
theorem batch_empty_input_shortcircuit (filedNames : List String)
    (values : List (List String)) (withOutIds : List Nat)
    (rows : List (Nat × List String))
    (h : values = [] ∨ filedNames = []) :
    CheckUniqueKeysExistBatch filedNames values withOutIds rows =
      { res := List.replicate values.length false, err := none,
        queryIssued := false } := by
  have h0 : values.length = 0 ∨ filedNames.length = 0 := by
    rcases h with h | h <;> simp [h]
  unfold CheckUniqueKeysExistBatch
  rw [if_pos h0]

/-- C10 witness: one candidate but an empty field list. -/
theorem batch_empty_input_shortcircuit_witness :
    CheckUniqueKeysExistBatch [] [["a"]] [] [] =
      { res := List.replicate ([["a"]] : List (List String)).length false,
        err := none, queryIssued := false } :=
  batch_empty_input_shortcircuit [] [["a"]] [] [] (Or.inr rfl)

/-- C6: EventExecution aborts with an error and without persisting anything
when no state machine is registered, when no entity is registered, when the
event is not legal from the initial state, or when a hook fails while firing;
and when the save itself is the failing step the error still propagates with
storage unchanged. -/
theorem eventExecution_failures_abort (m : StateMachine) (ent : Entity)
    (initStatus event zh : String) (hookErr : Option String) (saveOk : Bool)
    (store : Option Entity) (e : String) :
    (EventExecution none (some ent) initStatus event zh hookErr saveOk store =
      { err := some "状态机未注册,请开发检查", saveIssued := false, store := store }) ∧
    (EventExecution (some m) none initStatus event zh hookErr saveOk store =
      { err := some "业务实体为空,请开发检查", saveIssued := false, store := store }) ∧
    (canFire m.events initStatus event = false →
      ((EventExecution (some m) (some ent) initStatus event zh hookErr saveOk store).err.isSome = true ∧
       (EventExecution (some m) (some ent) initStatus event zh hookErr saveOk store).saveIssued = false ∧
       (EventExecution (some m) (some ent) initStatus event zh hookErr saveOk store).store = store)) ∧
    (canFire m.events initStatus event = true →
      ((EventExecution (some m) (some ent) initStatus event zh (some e) saveOk store).err.isSome = true ∧
       (EventExecution (some m) (some ent) initStatus event zh (some e) saveOk store).saveIssued = false ∧
       (EventExecution (some m) (some ent) initStatus event zh (some e) saveOk store).store = store)) ∧
    ((EventExecution (some m) (some ent) initStatus event zh hookErr false store).err.isSome = true ∧
     (EventExecution (some m) (some ent) initStatus event zh hookErr false store).store = store) := by
  refine ⟨rfl, rfl, ?_, ?_, ?_⟩
  · intro h
    simp [EventExecution, h]
  · intro h
    simp [EventExecution, h]
  · by_cases hc : canFire m.events initStatus event = true
    · cases hookErr with
      | none => simp [EventExecution, hc]
      | some e2 => simp [EventExecution, hc]
    · have hc0 : canFire m.events initStatus event = false := by
        simpa using hc
      simp [EventExecution, hc0]

/-- C6 witness: with the single transition go: 1 → 2, the call from the
illegal state 0 and the hook-failing call from the legal state 1 both issue
no save. -/
theorem eventExecution_failures_abort_witness :
    (EventExecution
      (some (InitStateMachine "1" [⟨"go", ["1"], "2"⟩] fun d x => { x with status := d }))
      (some ⟨"1"⟩) "0" "go" "zh0" none true (some (Entity.mk "1"))).saveIssued = false ∧
    (EventExecution
      (some (InitStateMachine "1" [⟨"go", ["1"], "2"⟩] fun d x => { x with status := d }))
      (some ⟨"1"⟩) "1" "go" "zh0" (some "hook") true (some (Entity.mk "1"))).saveIssued = false := by
  constructor
  · exact ((eventExecution_failures_abort
      (InitStateMachine "1" [⟨"go", ["1"], "2"⟩] fun d x => { x with status := d })
      ⟨"1"⟩ "0" "go" "zh0" none true (some (Entity.mk "1")) "hook").2.2.1 (by decide)).2.1
  · exact ((eventExecution_failures_abort
      (InitStateMachine "1" [⟨"go", ["1"], "2"⟩] fun d x => { x with status := d })
      ⟨"1"⟩ "1" "go" "zh0" none true (some (Entity.mk "1")) "hook").2.2.2.1 (by decide)).2.1

/-- C7: on a machine initialized with the after-event hook that writes the
destination into the status field, EventExecution with an event legal from
the initial state succeeds and persists the entity with status equal to the
event's declared destination; the no-transition case (destination equal to
the initial state) is tolerated the same way. -/
theorem eventExecution_legal_persists_destination
    (seed initStatus event zh dst : String) (events : List EventDesc)
    (ent : Entity) (store : Option Entity)
    (hlegal : findDst events initStatus event = some dst) :
    EventExecution
      (some (InitStateMachine seed events fun d x => { x with status := d }))
      (some ent) initStatus event zh none true store =
      { err := none, saveIssued := true, store := some { ent with status := dst } } := by
  have hc : canFire events initStatus event = true := by
    simp [canFire, hlegal]
  simp only [EventExecution, InitStateMachine, hc, Bool.not_true, Bool.false_eq_true,
    if_false, fireEvent, hlegal, if_true, reduceIte]
  split <;> rfl

/-- C7 witness: the spec's scenario, allDelivery legal from 1 and 2 with
destination 3, fired from state 1, persists status 3. -/
theorem eventExecution_legal_persists_destination_witness :
    EventExecution
      (some (InitStateMachine "1" [⟨"allDelivery", ["1", "2"], "3"⟩]
        fun d x => { x with status := d }))
      (some ⟨"1"⟩) "1" "allDelivery" "全部发货" none true none =
      { err := none, saveIssued := true, store := some (Entity.mk "3") } :=
  eventExecution_legal_persists_destination "1" "1" "allDelivery" "全部发货" "3"
    [⟨"allDelivery", ["1", "2"], "3"⟩] ⟨"1"⟩ none (by decide)

/-- C8: Count and List compose the condition functions in the fixed order
default condition, permission conditions, caller conditions, the conjuncts
accumulating in that order; Count clears limit and offset after all
conditions, whatever they set; and List appends the default order id desc
when no custom order is configured. -/
theorem list_count_composition (d : String) (ps cs : List String)
    (dflt : SearchCondition) (perms conds : List SearchCondition)
    (q0 q1 : Query) :
    (CountQuery (whereScope d) (ps.map whereScope) (cs.map whereScope) q0).wheres =
      q0.wheres ++ d :: (ps ++ cs) ∧
    (CountQuery dflt perms conds q1).limit = none ∧
    (CountQuery dflt perms conds q1).offset = none ∧
    (ListQuery (whereScope d) (ps.map whereScope) (cs.map whereScope) "" q0).wheres =
      q0.wheres ++ d :: (ps ++ cs) ∧
    (ListQuery (whereScope d) (ps.map whereScope) (cs.map whereScope) "" q0).orders =
      q0.orders ++ ["id desc"] := by
  refine ⟨?_, ?_, ?_, ?_, ?_⟩
  · simp [CountQuery, ClearOffset, offsetScope, limitScope, applyScopes_whereScope,
      whereScope]
  · simp [CountQuery, ClearOffset, offsetScope, limitScope]
  · simp [CountQuery, ClearOffset, offsetScope, limitScope]
  · simp [ListQuery, orderScope, applyScopes_whereScope, whereScope]
  · simp [ListQuery, orderScope, applyScopes_whereScope, whereScope]

end Base
